import Mathlib

/-!
Shallow embedding of the honey-badger delivery lifecycle engine:
the status state machine (routes/badger PATCH, DELETE), the progress
evaluators (routes/task `calculateTaskProgress`, `calculateFitnessProgress`),
the scheduler sweeps (services/cronService), and the chat timeline
pagination/analytics (routes/chat).  Machine numbers are modelled as `ℚ`
(JS numbers on the values the theorems touch are exact), timestamps as `ℤ`
milliseconds, and the dynamically typed `target`/`content` fields as a
string-or-number variant.
-/

namespace HB

/-- A JavaScript runtime value for the dynamically typed fields
(`requirement.target` and `submission.content` are `number | string`). -/
inductive JsVal where
  | num (q : ℚ)
  | str (s : String)
deriving DecidableEq, Repr

/-- JS truthiness, as used by `if (submission.content)`. -/
def JsVal.truthy : JsVal → Bool
  | .num q => q != 0
  | .str s => s != ""

/-- The JS test `typeof v === 'number'`. -/
def JsVal.isNumber : JsVal → Bool
  | .num _ => true
  | .str _ => false

/-- Numeric value of a `JsVal`; only consulted on `num` values by the code
paths the theorems exercise (guarded by `isNumber`, or covered by the data
model's numeric-target invariant). -/
def JsVal.asNum : JsVal → ℚ
  | .num q => q
  | .str _ => 0

/-- `Math.round` in JavaScript: round half toward positive infinity. -/
def jsRound (q : ℚ) : ℤ := ⌊q + 1/2⌋

/-- The eight wire statuses of `BadgerStatus` (types/index.ts, model enum). -/
inductive Status where
  | created
  | sent
  | received
  | inProgress
  | awaitingVerification
  | completed
  | expired
  | cancelled
deriving DecidableEq, Repr

/-- One task requirement (`taskRequirementSchema`): a type tag and a
number-or-string target. -/
structure Requirement where
  type : String
  target : JsVal
deriving DecidableEq, Repr

/-- One task submission (`taskSubmissionSchema`): type tag, content,
server-assigned timestamp. -/
structure Submission where
  type : String
  content : JsVal
  timestamp : ℤ
deriving DecidableEq, Repr

/-- `task.progress` (`taskProgressSchema`). -/
structure Progress where
  completed : Bool
  percentage : ℤ
  submissions : List Submission
  verificationStatus : String
  lastUpdated : ℤ
deriving DecidableEq, Repr

/-- `badger.task` (`taskSchema`); fields not consulted by the engine are
omitted (title, description). -/
structure Task where
  type : String
  requirements : List Requirement
  verificationMethod : String
  deadline : Option ℤ
  progress : Progress
deriving DecidableEq, Repr

/-- A delivery ("honey badger") record, restricted to the fields the
lifecycle engine reads or writes. -/
structure Delivery where
  status : Status
  task : Task
  expiresAt : Option ℤ
  completedAt : Option ℤ
deriving DecidableEq, Repr

/-- Synchronous error responses of the engine's routes.  (The source has no
concurrent-modification error anywhere: this enumeration is exhaustive for
the modelled operations.) -/
inductive EngineError where
  | invalidTransition
  | cannotCancelCompleted
  | wrongStatusForSubmit
  | notFitnessTask
deriving DecidableEq, Repr

/-- The `allowedTransitions` record literal in `PATCH /:id/status`
(routes/badger).  A status that is not a key yields `undefined`, hence the
empty list (`?.includes` is falsy). -/
def allowedTransitions : Status → List Status
  | .sent => [.received, .cancelled]
  | .received => [.inProgress, .cancelled]
  | .inProgress => [.awaitingVerification, .cancelled]
  | .awaitingVerification => [.completed, .inProgress]
  | _ => []

/-- The write phase of `PATCH /:id/status`: set `status`, and on entering
`completed` also set `completedAt`, `progress.completed = true`,
`progress.percentage = 100`. -/
def patchApply (now : ℤ) (d : Delivery) (s : Status) : Delivery :=
  let d1 := { d with status := s }
  if s = .completed then
    { d1 with
      completedAt := some now
      task := { d1.task with
        progress := { d1.task.progress with completed := true, percentage := 100 } } }
  else d1

/-- `PATCH /:id/status` on a found delivery: validate against the
transition table, else respond 400 ("Invalid status transition"). -/
def patchStatus (now : ℤ) (d : Delivery) (s : Status) : Except EngineError Delivery :=
  if s ∈ allowedTransitions d.status then .ok (patchApply now d s)
  else .error .invalidTransition

/-- `DELETE /:id` (cancel) on a found delivery: rejected only when the
current status is `completed`, otherwise sets status `cancelled`. -/
def cancelBadger (d : Delivery) : Except EngineError Delivery :=
  if d.status = .completed then .error .cannotCancelCompleted
  else .ok { d with status := .cancelled }

/-- The transition table exactly as the specification's §4.1 lists it:
the eight (current, requested) pairs. -/
def specTransitionTable : List (Status × Status) :=
  [(.sent, .received), (.sent, .cancelled),
   (.received, .inProgress), (.received, .cancelled),
   (.inProgress, .awaitingVerification), (.inProgress, .cancelled),
   (.awaitingVerification, .completed), (.awaitingVerification, .inProgress)]

theorem mem_specTransitionTable_iff (a b : Status) :
    (a, b) ∈ specTransitionTable ↔ b ∈ allowedTransitions a := by
  cases a <;> cases b <;> simp [specTransitionTable, allowedTransitions]

/-- C1: a status-transition request on an existing delivery succeeds and
sets the status to the requested value exactly when the (current,
requested) pair is in the spec's table, failing with `InvalidTransition`
otherwise (the delivery record is returned unchanged only through `.ok`,
so an error leaves it untouched); entering `completed` also sets
`completedAt`, `progress.completed` and `progress.percentage = 100`, and
any other target changes the status field only. -/
theorem statusTransition_follows_table (now : ℤ) (d : Delivery) (s : Status) :
    ((d.status, s) ∈ specTransitionTable →
      ∃ d', patchStatus now d s = .ok d' ∧ d'.status = s ∧
        (s = .completed →
          d'.completedAt = some now ∧
          d'.task.progress.completed = true ∧
          d'.task.progress.percentage = 100) ∧
        (s ≠ .completed → d' = { d with status := s })) ∧
    ((d.status, s) ∉ specTransitionTable →
      patchStatus now d s = .error .invalidTransition) := by
  constructor
  · intro hmem
    rw [mem_specTransitionTable_iff] at hmem
    refine ⟨patchApply now d s, ?_, ?_, ?_, ?_⟩
    · simp [patchStatus, hmem]
    · by_cases hc : s = .completed <;> simp [patchApply, hc]
    · intro hc; simp [patchApply, hc]
    · intro hc; simp [patchApply, hc]
  · intro hmem
    rw [mem_specTransitionTable_iff] at hmem
    simp [patchStatus, hmem]

/-- Witness for C1: from `sent`, requesting `received` succeeds with the
new status, and requesting `completed` is refused. -/
theorem statusTransition_follows_table_witness :
    (∃ d', patchStatus 0
        { status := .sent,
          task := { type := "habit", requirements := [], verificationMethod := "manual",
                    deadline := none,
                    progress := { completed := false, percentage := 0, submissions := [],
                                  verificationStatus := "pending", lastUpdated := 0 } },
          expiresAt := none, completedAt := none } .received = .ok d' ∧
      d'.status = .received) ∧
    patchStatus 0
        { status := .sent,
          task := { type := "habit", requirements := [], verificationMethod := "manual",
                    deadline := none,
                    progress := { completed := false, percentage := 0, submissions := [],
                                  verificationStatus := "pending", lastUpdated := 0 } },
          expiresAt := none, completedAt := none } .completed = .error .invalidTransition := by
  constructor
  · obtain ⟨d', h1, h2, -, -⟩ :=
      (statusTransition_follows_table 0
        { status := .sent,
          task := { type := "habit", requirements := [], verificationMethod := "manual",
                    deadline := none,
                    progress := { completed := false, percentage := 0, submissions := [],
                                  verificationStatus := "pending", lastUpdated := 0 } },
          expiresAt := none, completedAt := none } .received).1 (by decide)
    exact ⟨d', h1, h2⟩
  · exact (statusTransition_follows_table 0
        { status := .sent,
          task := { type := "habit", requirements := [], verificationMethod := "manual",
                    deadline := none,
                    progress := { completed := false, percentage := 0, submissions := [],
                                  verificationStatus := "pending", lastUpdated := 0 } },
          expiresAt := none, completedAt := none } .completed).2 (by decide)

/-! Progress evaluators (routes/task helpers) -/

/-- One iteration of the inner submission loop in `calculateTaskProgress`:
the running `requirementMet` flag is reassigned (possibly back to `false`)
by each submission whose `type` matches the requirement's. -/
def checkSubmission (req : Requirement) (met : Bool) (s : Submission) : Bool :=
  if s.type = req.type then
    if req.type = "photo" ∨ req.type = "video" then true
    else if req.target.isNumber ∧ s.content.isNumber then
      decide (req.target.asNum ≤ s.content.asNum)
    else if req.type = "text" ∧ s.content.truthy then true
    else met
  else met

/-- Whether one requirement ends up met after scanning the freshly supplied
submission batch (`calculateTaskProgress`'s inner loop, initial flag
`false`). -/
def requirementMet (subs : List Submission) (req : Requirement) : Bool :=
  subs.foldl (checkSubmission req) false

/-- Result record of `calculateTaskProgress`. -/
structure TaskProgressResult where
  percentage : ℤ
  completed : Bool
  verificationStatus : String
deriving DecidableEq, Repr

/-- `calculateTaskProgress` (routes/task): count the requirements met by
the new submission batch, `percentage = round(count / total * 100)`,
`completed = (percentage === 100)`, `verificationStatus` approved only for
automatic verification. -/
def calculateTaskProgress (reqs : List Requirement) (verificationMethod : String)
    (subs : List Submission) : TaskProgressResult :=
  let completedRequirements := reqs.countP (fun r => requirementMet subs r)
  let percentage := jsRound ((completedRequirements : ℚ) / (reqs.length : ℚ) * 100)
  { percentage := percentage
    completed := decide (percentage = 100)
    verificationStatus := if verificationMethod = "automatic" then ("approved") else ("pending") }

/-- A fitness-data snapshot as produced by `fitnessService.syncUserData`. -/
structure FitnessData where
  steps : ℚ
  exerciseMinutes : ℚ
  distance : ℚ
  calories : ℚ
deriving DecidableEq, Repr

/-- The `switch (requirement.type)` of `calculateFitnessProgress`: clamped
ratio of the observed metric over the target; an unrecognized requirement
type leaves the loop variable at 0. -/
def fitnessRequirementProgress (data : FitnessData) (r : Requirement) : ℚ :=
  if r.type = "step-count" then min (data.steps / r.target.asNum) 1
  else if r.type = "exercise-minutes" then min (data.exerciseMinutes / r.target.asNum) 1
  else if r.type = "distance" then min (data.distance / r.target.asNum) 1
  else if r.type = "calories" then min (data.calories / r.target.asNum) 1
  else 0

/-- Result record of `calculateFitnessProgress`. -/
structure FitnessProgressResult where
  percentage : ℤ
  completed : Bool
deriving DecidableEq, Repr

/-- `calculateFitnessProgress` (routes/task): sum the clamped ratios and
count the requirements whose ratio reached 1 in one pass;
`percentage = round(total / count * 100)`,
`completed = (completedRequirements === requirements.length)`. -/
def calculateFitnessProgress (reqs : List Requirement) (data : FitnessData) :
    FitnessProgressResult :=
  let totalProgress := (reqs.map (fitnessRequirementProgress data)).sum
  let completedRequirements := reqs.countP (fun r => decide (1 ≤ fitnessRequirementProgress data r))
  { percentage := jsRound (totalProgress / (reqs.length : ℚ) * 100)
    completed := decide (completedRequirements = reqs.length) }

theorem fitnessRequirementProgress_le_one (data : FitnessData) (r : Requirement) :
    fitnessRequirementProgress data r ≤ 1 := by
  unfold fitnessRequirementProgress
  split
  · exact min_le_right _ _
  split
  · exact min_le_right _ _
  split
  · exact min_le_right _ _
  split
  · exact min_le_right _ _
  · norm_num

theorem sum_map_of_all_one {α : Type} (f : α → ℚ) :
    ∀ l : List α, (∀ r ∈ l, f r = 1) → (l.map f).sum = l.length
  | [], _ => by simp
  | a :: l, h => by
    have ha := h a (by simp)
    have hl := sum_map_of_all_one f l (fun r hr => h r (by simp [hr]))
    simp [ha, hl]
    ring

/-- The fitness evaluator marks a delivery complete exactly when every
requirement's clamped ratio reached 1. -/
theorem fitnessProgress_completed_iff (reqs : List Requirement) (data : FitnessData) :
    (calculateFitnessProgress reqs data).completed = true ↔
      ∀ r ∈ reqs, fitnessRequirementProgress data r = 1 := by
  unfold calculateFitnessProgress
  simp only [decide_eq_true_eq, List.countP_eq_length]
  constructor
  · intro h r hr
    exact le_antisymm (fitnessRequirementProgress_le_one data r) (h r hr)
  · intro h r hr
    exact le_of_eq (h r hr).symm

theorem jsRound_hundred : jsRound 100 = 100 := by
  unfold jsRound
  norm_num [Int.floor_eq_iff]

/-- C2: for both evaluator algorithms, on any input, a result with
`completed = true` has `percentage = 100` (the fitness algorithm needs the
data-model invariant that a task's requirement list is non-empty, which
`schemas.createBadger` enforces with `.min(1)`). -/
theorem progress_completed_implies_percentage_100 :
    (∀ (reqs : List Requirement) (vm : String) (subs : List Submission),
      (calculateTaskProgress reqs vm subs).completed = true →
      (calculateTaskProgress reqs vm subs).percentage = 100) ∧
    (∀ (reqs : List Requirement) (data : FitnessData), reqs ≠ [] →
      (calculateFitnessProgress reqs data).completed = true →
      (calculateFitnessProgress reqs data).percentage = 100) := by
  constructor
  · intro reqs vm subs h
    have h' : decide ((calculateTaskProgress reqs vm subs).percentage = 100) = true := h
    exact of_decide_eq_true h'
  · intro reqs data hne h
    have hall := (fitnessProgress_completed_iff reqs data).mp h
    unfold calculateFitnessProgress
    have hsum : (reqs.map (fitnessRequirementProgress data)).sum = reqs.length :=
      sum_map_of_all_one _ reqs hall
    simp only [hsum]
    have hlen0 : reqs.length ≠ 0 := fun hc => hne (List.length_eq_zero.mp hc)
    have hlen : (reqs.length : ℚ) ≠ 0 := Nat.cast_ne_zero.mpr hlen0
    rw [div_self hlen, one_mul]
    exact jsRound_hundred

theorem taskProgressExample_completed :
    (calculateTaskProgress [⟨"text", .str ("n/a")⟩] "automatic"
        [⟨"text", .str ("did it"), 0⟩]).completed = true := by
  simp +decide only [calculateTaskProgress, requirementMet, checkSubmission,
    JsVal.isNumber, JsVal.truthy, jsRound, List.foldl, List.countP_cons, List.countP_nil,
    List.length_cons, List.length_nil]
  norm_num

theorem fitnessExample_completed :
    (calculateFitnessProgress [⟨"step-count", .num 100⟩]
        ⟨100, 0, 0, 0⟩).completed = true := by
  simp [calculateFitnessProgress, fitnessRequirementProgress, JsVal.asNum]

/-- Witness for C2: a single satisfied text requirement gives a completed
result at percentage 100, and a fitness task with its one requirement at
target gives the same. -/
theorem progress_completed_implies_percentage_100_witness :
    (calculateTaskProgress [⟨"text", .str ("n/a")⟩] "automatic"
        [⟨"text", .str ("did it"), 0⟩]).percentage = 100 ∧
    (calculateFitnessProgress [⟨"step-count", .num 100⟩]
        ⟨100, 0, 0, 0⟩).percentage = 100 := by
  constructor
  · exact progress_completed_implies_percentage_100.1 [⟨"text", .str ("n/a")⟩] "automatic"
      [⟨"text", .str ("did it"), 0⟩] taskProgressExample_completed
  · exact progress_completed_implies_percentage_100.2 [⟨"step-count", .num 100⟩]
      ⟨100, 0, 0, 0⟩ (by decide) fitnessExample_completed

/-- C5: the fitness evaluator completes exactly when every requirement's
clamped ratio `min(metric / target, 1)` reaches 1, its percentage is the
rounded average of those ratios scaled to 100, and on the spec's example
(`step-count` target 10000, `distance` target 5, snapshot steps 5000 and
distance 5) it returns percentage 75 and `completed = false`. -/
theorem fitnessProgress_spec (reqs : List Requirement) (data : FitnessData) :
    ((calculateFitnessProgress reqs data).completed = true ↔
      ∀ r ∈ reqs, fitnessRequirementProgress data r = 1) ∧
    (calculateFitnessProgress reqs data).percentage =
      jsRound ((reqs.map (fitnessRequirementProgress data)).sum / (reqs.length : ℚ) * 100) ∧
    calculateFitnessProgress
        [⟨"step-count", .num 10000⟩, ⟨"distance", .num 5⟩]
        ⟨5000, 0, 5, 0⟩ = ⟨75, false⟩ := by
  refine ⟨fitnessProgress_completed_iff reqs data, rfl, ?_⟩
  simp +decide only [calculateFitnessProgress, fitnessRequirementProgress, JsVal.asNum,
    jsRound, List.map_cons, List.map_nil, List.sum_cons, List.sum_nil, List.countP_cons,
    List.countP_nil, List.length_cons, List.length_nil, FitnessProgressResult.mk.injEq]
  norm_num

/-- Witness for C5: the theorem applied at the example input itself. -/
theorem fitnessProgress_spec_witness :
    ((calculateFitnessProgress [⟨"step-count", .num 10000⟩, ⟨"distance", .num 5⟩]
        ⟨5000, 0, 5, 0⟩).completed = true ↔
      ∀ r ∈ [Requirement.mk ("step-count") (.num 10000), Requirement.mk ("distance") (.num 5)],
        fitnessRequirementProgress ⟨5000, 0, 5, 0⟩ r = 1) ∧
    calculateFitnessProgress [⟨"step-count", .num 10000⟩, ⟨"distance", .num 5⟩]
        ⟨5000, 0, 5, 0⟩ = ⟨75, false⟩ :=
  ⟨(fitnessProgress_spec [⟨"step-count", .num 10000⟩, ⟨"distance", .num 5⟩]
      ⟨5000, 0, 5, 0⟩).1,
   (fitnessProgress_spec [] ⟨0, 0, 0, 0⟩).2.2⟩

/-! C4: numeric-target requirements in the submission evaluator -/

/-- `schemas.submitTask` (middleware/validation): a submission's `type` is
one of the four wire values and its `content` is a required (hence
non-empty) string. -/
def schemaValidSubmission (s : Submission) : Bool :=
  (s.type ∈ ["photo", "video", "text", "data"] : Bool) &&
    (match s.content with
     | .str c => c != ""
     | .num _ => false)

/-- Decimal-digit reading of a character list (`none` when any character
is not a digit or the list is empty). -/
def parseDigits : List Char → Option ℕ
  | [] => none
  | l => l.foldl (fun acc c =>
      match acc with
      | none => none
      | some n => if c.isDigit then some (n * 10 + (c.toNat - 48)) else none) (some 0)

/-- Reading of claim C4's words, for comparison with the source: a content
value "parses to a number" when it is a number already or a decimal string. -/
def jsParseNumber : JsVal → Option ℚ
  | .num q => some q
  | .str s => (parseDigits s.data).map (fun n => (n : ℚ))

/-- Reading of claim C4's words, for comparison with the source: the batch
contains a submission of matching type whose content parses to a number
greater than or equal to the (numeric) target. -/
def claimNumericSatisfied (r : Requirement) (subs : List Submission) : Prop :=
  ∃ s ∈ subs, s.type = r.type ∧
    ∃ q, jsParseNumber s.content = some q ∧ r.target.asNum ≤ q

instance (r : Requirement) (subs : List Submission) :
    Decidable (claimNumericSatisfied r subs) := by
  unfold claimNumericSatisfied
  infer_instance

/-- Counterexample to C4: requirement `photo` with numeric target 5 and a
schema-valid photo submission whose content is a plain URL string.  The
code marks the requirement satisfied by mere presence, while the claim's
parse-based criterion does not hold (nothing parses to a number at all). -/
theorem numericTarget_claim_counterexample :
    (Requirement.mk ("photo") (.num 5)).target.isNumber = true ∧
    schemaValidSubmission ⟨"photo", .str ("evidence.jpg"), 0⟩ = true ∧
    requirementMet [⟨"photo", .str ("evidence.jpg"), 0⟩] ⟨"photo", .num 5⟩ = true ∧
    ¬ claimNumericSatisfied ⟨"photo", .num 5⟩ [⟨"photo", .str ("evidence.jpg"), 0⟩] := by
  refine ⟨rfl, by decide, by decide, by decide⟩

theorem checkSubmission_valid_numeric (r : Requirement) (acc : Bool) (s : Submission)
    (hv : schemaValidSubmission s = true) (_ht : r.target.isNumber = true) :
    checkSubmission r acc s =
      (acc || (s.type == r.type &&
        decide (r.type = "photo" ∨ r.type = "video" ∨ r.type = "text"))) := by
  obtain ⟨c, hc, hcne⟩ : ∃ c, s.content = .str c ∧ c ≠ "" := by
    unfold schemaValidSubmission at hv
    cases hsc : s.content with
    | str c =>
      refine ⟨c, rfl, ?_⟩
      rw [hsc] at hv
      simp only [Bool.and_eq_true, bne_iff_ne] at hv
      exact hv.2
    | num q => rw [hsc] at hv; simp at hv
  have hcnum : s.content.isNumber = false := by rw [hc]; rfl
  have hctr : s.content.truthy = true := by
    rw [hc]; simpa [JsVal.truthy] using hcne
  unfold checkSubmission
  split_ifs with h1 h2 h3 h4
  · have hbeq : (s.type == r.type) = true := by simpa using h1
    have hdec : decide (r.type = "photo" ∨ r.type = "video" ∨ r.type = "text") = true := by
      rw [decide_eq_true_eq]
      rcases h2 with h | h
      · exact Or.inl h
      · exact Or.inr (Or.inl h)
    rw [hbeq, hdec, Bool.true_and, Bool.or_true]
  · exact absurd h3.2 (by rw [hcnum]; simp)
  · have hbeq : (s.type == r.type) = true := by simpa using h1
    have hdec : decide (r.type = "photo" ∨ r.type = "video" ∨ r.type = "text") = true := by
      rw [decide_eq_true_eq]
      exact Or.inr (Or.inr h4.1)
    rw [hbeq, hdec, Bool.true_and, Bool.or_true]
  · have hbeq : (s.type == r.type) = true := by simpa using h1
    have hdec : decide (r.type = "photo" ∨ r.type = "video" ∨ r.type = "text") = false := by
      rw [decide_eq_false_iff_not]
      rintro (h | h | h)
      · exact h2 (Or.inl h)
      · exact h2 (Or.inr h)
      · exact h4 ⟨h, hctr⟩
    rw [hbeq, hdec, Bool.true_and, Bool.or_false]
  · have hbeq : (s.type == r.type) = false := by simpa using h1
    rw [hbeq, Bool.false_and, Bool.or_false]

theorem foldl_checkSubmission_valid_numeric (r : Requirement)
    (ht : r.target.isNumber = true) :
    ∀ (subs : List Submission) (acc : Bool),
      (∀ s ∈ subs, schemaValidSubmission s = true) →
      subs.foldl (checkSubmission r) acc =
        (acc || subs.any (fun s => s.type == r.type &&
          decide (r.type = "photo" ∨ r.type = "video" ∨ r.type = "text")))
  | [], acc, _ => by simp
  | s :: subs, acc, hv => by
    have hs := hv s (List.mem_cons_self s subs)
    have hrec := foldl_checkSubmission_valid_numeric r ht subs
      (checkSubmission r acc s) (fun x hx => hv x (List.mem_cons_of_mem s hx))
    rw [List.foldl_cons, hrec, checkSubmission_valid_numeric r acc s hs ht,
      List.any_cons]
    exact Bool.or_assoc _ _ _

/-- C4 amended: under the submission schema, the numeric-comparison branch
of `calculateTaskProgress` is unreachable (content is always a string), so
a requirement with a numeric target is satisfied exactly when its type is
`photo`, `video` or `text` and a submission of matching type exists; in
particular the numeric requirement types (step-count, exercise-minutes,
distance, calories) are never satisfied by a schema-valid batch, since no
valid submission type matches them. -/
theorem requirementMet_numericTarget (r : Requirement) (subs : List Submission)
    (hv : ∀ s ∈ subs, schemaValidSubmission s = true)
    (ht : r.target.isNumber = true) :
    (requirementMet subs r = true ↔
      ((r.type = "photo" ∨ r.type = "video" ∨ r.type = "text") ∧
        ∃ s ∈ subs, s.type = r.type)) ∧
    (r.type ∈ ["step-count", "exercise-minutes", "distance", "calories"] →
      requirementMet subs r = false) := by
  have hfold := foldl_checkSubmission_valid_numeric r ht subs false hv
  unfold requirementMet
  rw [hfold, Bool.false_or]
  constructor
  · rw [List.any_eq_true]
    constructor
    · rintro ⟨s, hs, hP⟩
      rw [Bool.and_eq_true, beq_iff_eq, decide_eq_true_eq] at hP
      exact ⟨hP.2, s, hs, hP.1⟩
    · rintro ⟨hmem, s, hs, hty⟩
      refine ⟨s, hs, ?_⟩
      rw [Bool.and_eq_true, beq_iff_eq, decide_eq_true_eq]
      exact ⟨hty, hmem⟩
  · intro hmem
    have hthree : ¬ (r.type = "photo" ∨ r.type = "video" ∨ r.type = "text") := by
      simp only [List.mem_cons, List.not_mem_nil, or_false] at hmem
      rintro (h | h | h) <;> rcases hmem with hm | hm | hm | hm <;> rw [h] at hm <;>
        exact absurd hm (by decide)
    have hdec : decide (r.type = "photo" ∨ r.type = "video" ∨ r.type = "text") = false :=
      decide_eq_false hthree
    rw [List.any_eq_false]
    intro s _
    rw [hdec, Bool.and_false]
    exact Bool.false_ne_true

/-- Witness for the amended C4: a data-type requirement with numeric
target is not satisfied even by a matching data submission whose string
content would parse to a large enough number, while a photo requirement
with numeric target is satisfied by any photo submission. -/
theorem requirementMet_numericTarget_witness :
    requirementMet [⟨"data", .str ("12000"), 0⟩] ⟨"step-count", .num 10000⟩ = false ∧
    requirementMet [⟨"photo", .str ("evidence.jpg"), 0⟩] ⟨"photo", .num 5⟩ = true := by
  constructor
  · exact (requirementMet_numericTarget ⟨"step-count", .num 10000⟩
      [⟨"data", .str ("12000"), 0⟩] (by decide) rfl).2 (by decide)
  · exact ((requirementMet_numericTarget ⟨"photo", .num 5⟩
      [⟨"photo", .str ("evidence.jpg"), 0⟩] (by decide) rfl).1).mpr
      ⟨Or.inl rfl, ⟨"photo", .str ("evidence.jpg"), 0⟩, by simp, rfl⟩

/-! Submission, fitness sync, and scheduler sweeps -/

/-- `POST /:badgerId/submit` (routes/task) on a found delivery, after
validation and file-URL substitution: reject unless the status is
`received`, `in-progress` or `awaiting-verification`; append the batch to
`progress.submissions`; recompute progress from the new batch only; then
move to `completed` (automatic verification) or `awaiting-verification`
when complete, or from `received` to `in-progress` otherwise. -/
def submitTask (now : ℤ) (d : Delivery) (subs : List Submission) :
    Except EngineError Delivery :=
  if d.status = .received ∨ d.status = .inProgress ∨ d.status = .awaitingVerification then
    let p := calculateTaskProgress d.task.requirements d.task.verificationMethod subs
    let prog := { d.task.progress with
      submissions := d.task.progress.submissions ++ subs
      percentage := p.percentage
      completed := p.completed
      verificationStatus := p.verificationStatus
      lastUpdated := now }
    let d1 := { d with task := { d.task with progress := prog } }
    if p.completed then
      let st := if d.task.verificationMethod = "automatic" then Status.completed
                else Status.awaitingVerification
      .ok { d1 with
        status := st
        completedAt := if st = .completed then some now else d1.completedAt }
    else if d.status = .received then
      .ok { d1 with status := .inProgress }
    else
      .ok d1
  else .error .wrongStatusForSubmit

/-- `POST /:badgerId/sync-fitness` (routes/task) on a found delivery:
reject non-fitness tasks; recompute fitness progress from the snapshot;
set status `completed` (with `completedAt`) when the progress is complete
and the status is not already `completed`.  `syncProgress` is the updated
`task.progress` record shared by both outcomes. -/
def syncProgress (now : ℤ) (d : Delivery) (data : FitnessData) : Progress :=
  { d.task.progress with
    percentage := (calculateFitnessProgress d.task.requirements data).percentage
    completed := (calculateFitnessProgress d.task.requirements data).completed
    lastUpdated := now }

def syncFitness (now : ℤ) (d : Delivery) (data : FitnessData) :
    Except EngineError Delivery :=
  if d.task.type = "fitness" then
    if (calculateFitnessProgress d.task.requirements data).completed ∧ d.status ≠ .completed then
      .ok { d with
        status := .completed
        completedAt := some now
        task := { d.task with progress := syncProgress now d data } }
    else
      .ok { d with task := { d.task with progress := syncProgress now d data } }
  else .error .notFitnessTask

/-- Terminal statuses per the spec (`completed`, `cancelled`, `expired`). -/
def isTerminal (s : Status) : Bool :=
  s = .completed ∨ s = .cancelled ∨ s = .expired

/-- Whether a delivery's optional `expiresAt` lies strictly in the past
(a missing `expiresAt` never matches the Mongo `$lt` filter). -/
def expiresPast (now : ℤ) (d : Delivery) : Bool :=
  match d.expiresAt with
  | some t => t < now
  | none => false

/-- The per-document effect of `cleanupExpiredBadgers` (cronService): the
`updateMany` filter selects non-terminal deliveries with `expiresAt` in
the past and sets their status to `expired`; all other documents are
untouched. -/
def expireSweepOne (now : ℤ) (d : Delivery) : Delivery :=
  if ¬ isTerminal d.status ∧ expiresPast now d then { d with status := .expired }
  else d

/-- One run of the daily expiration sweep over the whole collection. -/
def cleanupExpiredBadgers (now : ℤ) (ds : List Delivery) : List Delivery :=
  ds.map (expireSweepOne now)

/-- Whether a delivery matches the force-expire filter of `checkDeadlines`
(cronService): status `received` or `in-progress` and `task.deadline`
strictly in the past. -/
def deadlineMatches (now : ℤ) (d : Delivery) : Bool :=
  (d.status = .received ∨ d.status = .inProgress) &&
    (match d.task.deadline with
     | some t => t < now
     | none => false)

/-- The per-document effect of the deadline force-expire `updateMany`. -/
def deadlineExpireOne (now : ℤ) (d : Delivery) : Delivery :=
  if deadlineMatches now d then { d with status := .expired } else d

/-- C10: a submission request is accepted exactly when the delivery is in
`received`, `in-progress` or `awaiting-verification`; on acceptance the
new status is `completed` (with `completedAt` set) for complete progress
under automatic verification, `awaiting-verification` for complete
progress otherwise, `in-progress` for incomplete progress from
`received`, and unchanged in every other case. -/
theorem submitTask_status_spec (now : ℤ) (d : Delivery) (subs : List Submission) :
    ((d.status = .received ∨ d.status = .inProgress ∨ d.status = .awaitingVerification) →
      ∃ d', submitTask now d subs = .ok d' ∧
        ((calculateTaskProgress d.task.requirements d.task.verificationMethod subs).completed = true →
          (d.task.verificationMethod = "automatic" →
            d'.status = .completed ∧ d'.completedAt = some now) ∧
          (d.task.verificationMethod ≠ "automatic" → d'.status = .awaitingVerification)) ∧
        ((calculateTaskProgress d.task.requirements d.task.verificationMethod subs).completed = false →
          (d.status = .received → d'.status = .inProgress) ∧
          (d.status ≠ .received → d'.status = d.status))) ∧
    (¬ (d.status = .received ∨ d.status = .inProgress ∨ d.status = .awaitingVerification) →
      submitTask now d subs = .error .wrongStatusForSubmit) := by
  constructor
  · intro hst
    unfold submitTask
    rw [if_pos hst]
    by_cases hc :
        (calculateTaskProgress d.task.requirements d.task.verificationMethod subs).completed = true
    · rw [if_pos hc]
      by_cases hvm : d.task.verificationMethod = "automatic"
      · refine ⟨_, rfl, fun _ => ⟨fun _ => ?_, fun h => absurd hvm h⟩,
          fun hf => absurd hc (by rw [hf]; exact Bool.false_ne_true)⟩
        constructor <;> simp [hvm]
      · refine ⟨_, rfl, fun _ => ⟨fun h => absurd h hvm, fun _ => ?_⟩,
          fun hf => absurd hc (by rw [hf]; exact Bool.false_ne_true)⟩
        simp [hvm]
    · rw [if_neg hc]
      have hc' :
          (calculateTaskProgress d.task.requirements d.task.verificationMethod subs).completed
            = false := Bool.eq_false_iff.mpr hc
      by_cases hr : d.status = .received
      · rw [if_pos hr]
        exact ⟨_, rfl, fun h => absurd h hc, fun _ => ⟨fun _ => rfl, fun h => absurd hr h⟩⟩
      · rw [if_neg hr]
        exact ⟨_, rfl, fun h => absurd h hc, fun _ => ⟨fun h => absurd h hr, fun _ => rfl⟩⟩
  · intro hst
    unfold submitTask
    rw [if_neg hst]

/-- Witness for C10: a `received` delivery with one unsatisfiable
step-count requirement accepts a submission and moves to `in-progress`;
the same delivery in `expired` status is rejected. -/
theorem submitTask_status_spec_witness :
    (∃ d', submitTask 5
        { status := .received,
          task := { type := "fitness", requirements := [⟨"step-count", .num 10000⟩],
                    verificationMethod := "automatic", deadline := none,
                    progress := { completed := false, percentage := 0, submissions := [],
                                  verificationStatus := "pending", lastUpdated := 0 } },
          expiresAt := none, completedAt := none }
        [⟨"data", .str ("7"), 1⟩] = .ok d' ∧ d'.status = .inProgress) ∧
    submitTask 5
        { status := .expired,
          task := { type := "fitness", requirements := [⟨"step-count", .num 10000⟩],
                    verificationMethod := "automatic", deadline := none,
                    progress := { completed := false, percentage := 0, submissions := [],
                                  verificationStatus := "pending", lastUpdated := 0 } },
          expiresAt := none, completedAt := none }
        [⟨"data", .str ("7"), 1⟩] = .error .wrongStatusForSubmit := by
  constructor
  · obtain ⟨d', hok, -, hinc⟩ :=
      (submitTask_status_spec 5
        { status := .received,
          task := { type := "fitness", requirements := [⟨"step-count", .num 10000⟩],
                    verificationMethod := "automatic", deadline := none,
                    progress := { completed := false, percentage := 0, submissions := [],
                                  verificationStatus := "pending", lastUpdated := 0 } },
          expiresAt := none, completedAt := none }
        [⟨"data", .str ("7"), 1⟩]).1 (Or.inl rfl)
    refine ⟨d', hok, (hinc ?_).1 rfl⟩
    simp +decide only [calculateTaskProgress, requirementMet, checkSubmission,
      JsVal.isNumber, JsVal.truthy, jsRound, List.foldl, List.countP_cons, List.countP_nil,
      List.length_cons, List.length_nil]
    norm_num
  · exact (submitTask_status_spec 5
        { status := .expired,
          task := { type := "fitness", requirements := [⟨"step-count", .num 10000⟩],
                    verificationMethod := "automatic", deadline := none,
                    progress := { completed := false, percentage := 0, submissions := [],
                                  verificationStatus := "pending", lastUpdated := 0 } },
          expiresAt := none, completedAt := none }
        [⟨"data", .str ("7"), 1⟩]).2 (by decide)

/-! C3: terminal statuses, and C6: the expiration sweep -/

/-- Status of the delivery an operation returned, if it succeeded. -/
def resultStatus : Except EngineError Delivery → Option Status
  | .ok d => some d.status
  | .error _ => none

/-- Counterexample to C3: the cancel route only rejects `completed`
deliveries, so it moves an `expired` delivery to `cancelled`; and the
fitness-sync route never checks the status, so it moves a `cancelled`
fitness delivery whose snapshot completes the task to `completed`. -/
theorem terminal_not_absorbing_counterexample :
    resultStatus (cancelBadger
      { status := .expired,
        task := { type := "habit", requirements := [], verificationMethod := "manual",
                  deadline := none,
                  progress := { completed := false, percentage := 0, submissions := [],
                                verificationStatus := "pending", lastUpdated := 0 } },
        expiresAt := none, completedAt := none }) = some .cancelled ∧
    resultStatus (syncFitness 9
      { status := .cancelled,
        task := { type := "fitness", requirements := [⟨"step-count", .num 100⟩],
                  verificationMethod := "automatic", deadline := none,
                  progress := { completed := false, percentage := 0, submissions := [],
                                verificationStatus := "pending", lastUpdated := 0 } },
        expiresAt := none, completedAt := none }
      ⟨100, 0, 0, 0⟩) = some .completed := by
  constructor
  · rfl
  · have hcomp := fitnessExample_completed
    simp +decide [syncFitness, hcomp, resultStatus]

/-- C3 amended: the three terminal statuses are absorbing for the
status-transition request, the submission request, and both scheduler
force-expire sweeps, and `completed` is also absorbing for the cancel
request and the fitness sync; but cancel moves any non-`completed`
delivery (in particular an `expired` one) to `cancelled`, and the fitness
sync moves any non-`completed` fitness delivery whose recomputed progress
is complete (in particular a `cancelled` or `expired` one) to
`completed`. -/
theorem terminal_absorbing_amended (now : ℤ) (d : Delivery) (subs : List Submission)
    (data : FitnessData) (s : Status) :
    (isTerminal d.status = true →
      patchStatus now d s = .error .invalidTransition ∧
      submitTask now d subs = .error .wrongStatusForSubmit ∧
      expireSweepOne now d = d ∧
      deadlineExpireOne now d = d) ∧
    (d.status = .completed →
      cancelBadger d = .error .cannotCancelCompleted ∧
      resultStatus (syncFitness now d data) ≠ some .cancelled ∧
      resultStatus (syncFitness now d data) ≠ some .expired ∧
      (∀ d', syncFitness now d data = .ok d' → d'.status = .completed)) ∧
    (d.status ≠ .completed →
      resultStatus (cancelBadger d) = some .cancelled) ∧
    (d.status ≠ .completed → d.task.type = "fitness" →
      (calculateFitnessProgress d.task.requirements data).completed = true →
      resultStatus (syncFitness now d data) = some .completed) := by
  refine ⟨?_, ?_, ?_, ?_⟩
  · intro hterm
    have hempty : allowedTransitions d.status = [] := by
      unfold isTerminal at hterm
      rcases hst : d.status <;> rw [hst] at hterm <;> simp at hterm <;>
        simp [allowedTransitions]
    have hnsub : ¬ (d.status = .received ∨ d.status = .inProgress ∨
        d.status = .awaitingVerification) := by
      unfold isTerminal at hterm
      rcases hst : d.status <;> rw [hst] at hterm <;> simp at hterm <;> simp
    refine ⟨?_, ?_, ?_, ?_⟩
    · unfold patchStatus
      rw [hempty]
      simp
    · unfold submitTask
      rw [if_neg hnsub]
    · unfold expireSweepOne
      rw [if_neg (by rw [hterm]; simp)]
    · unfold deadlineExpireOne
      have hnri : ¬ (d.status = .received ∨ d.status = .inProgress) := fun h =>
        hnsub (h.imp id Or.inl)
      have hdm : deadlineMatches now d = false := by
        unfold deadlineMatches
        rw [decide_eq_false hnri, Bool.false_and]
      rw [hdm]
      simp
  · intro hcompl
    have hstat : ∀ d', syncFitness now d data = .ok d' → d'.status = .completed := by
      intro d' hok
      unfold syncFitness at hok
      split at hok
      · split at hok
        · cases hok; rfl
        · cases hok; exact hcompl
      · cases hok
    refine ⟨by unfold cancelBadger; rw [if_pos hcompl], ?_, ?_, hstat⟩
    · cases hsync : syncFitness now d data with
      | ok d' =>
        have h := hstat d' hsync
        simp [resultStatus, h]
      | error e => simp [resultStatus]
    · cases hsync : syncFitness now d data with
      | ok d' =>
        have h := hstat d' hsync
        simp [resultStatus, h]
      | error e => simp [resultStatus]
  · intro hnc
    unfold cancelBadger
    rw [if_neg hnc]
    rfl
  · intro hnc hfit hcomplete
    unfold syncFitness
    rw [if_pos hfit, if_pos ⟨hcomplete, hnc⟩]
    rfl

/-- Witness for the amended C3: a completed delivery rejects both a
transition request and a cancel request, and the expiration sweep leaves
an expired delivery untouched. -/
theorem terminal_absorbing_amended_witness :
    patchStatus 0
      { status := .completed,
        task := { type := "habit", requirements := [], verificationMethod := "manual",
                  deadline := none,
                  progress := { completed := true, percentage := 100, submissions := [],
                                verificationStatus := "approved", lastUpdated := 0 } },
        expiresAt := none, completedAt := some 0 } .cancelled = .error .invalidTransition ∧
    cancelBadger
      { status := .completed,
        task := { type := "habit", requirements := [], verificationMethod := "manual",
                  deadline := none,
                  progress := { completed := true, percentage := 100, submissions := [],
                                verificationStatus := "approved", lastUpdated := 0 } },
        expiresAt := none, completedAt := some 0 } = .error .cannotCancelCompleted := by
  constructor
  · exact ((terminal_absorbing_amended 0
      { status := .completed,
        task := { type := "habit", requirements := [], verificationMethod := "manual",
                  deadline := none,
                  progress := { completed := true, percentage := 100, submissions := [],
                                verificationStatus := "approved", lastUpdated := 0 } },
        expiresAt := none, completedAt := some 0 } [] ⟨0, 0, 0, 0⟩ .cancelled).1
      (by decide)).1
  · exact (((terminal_absorbing_amended 0
      { status := .completed,
        task := { type := "habit", requirements := [], verificationMethod := "manual",
                  deadline := none,
                  progress := { completed := true, percentage := 100, submissions := [],
                                verificationStatus := "approved", lastUpdated := 0 } },
        expiresAt := none, completedAt := some 0 } [] ⟨0, 0, 0, 0⟩ .cancelled).2).1
      rfl).1

/-- C6: one run of the expiration sweep maps each delivery through
`expireSweepOne`: a non-terminal delivery with `expiresAt` in the past
comes out with status `expired` (and no other field changed), and every
other delivery comes out identical; in particular an `in-progress`
delivery with past `expiresAt` is forced to `expired` even though the
user-facing transition table has no `in-progress → expired` entry. -/
theorem expirationSweep_spec (now : ℤ) (ds : List Delivery) (d : Delivery) :
    cleanupExpiredBadgers now ds = ds.map (expireSweepOne now) ∧
    (isTerminal d.status = false → expiresPast now d = true →
      expireSweepOne now d = { d with status := .expired }) ∧
    ((isTerminal d.status = true ∨ expiresPast now d = false) →
      expireSweepOne now d = d) ∧
    (d.status = .inProgress → expiresPast now d = true →
      (expireSweepOne now d).status = .expired ∧
      .expired ∉ allowedTransitions .inProgress) := by
  refine ⟨rfl, ?_, ?_, ?_⟩
  · intro hterm hpast
    unfold expireSweepOne
    rw [if_pos ⟨by rw [hterm]; exact Bool.false_ne_true, hpast⟩]
  · intro h
    unfold expireSweepOne
    rcases h with h | h
    · rw [if_neg (fun hc => hc.1 h)]
    · rw [if_neg (fun hc => Bool.false_ne_true (h ▸ hc.2))]
  · intro hst hpast
    unfold expireSweepOne
    rw [if_pos ⟨by rw [isTerminal, hst]; simp, hpast⟩]
    exact ⟨rfl, by decide⟩

/-- Witness for C6: an `in-progress` delivery whose `expiresAt` has
passed is set to `expired` by the sweep. -/
theorem expirationSweep_spec_witness :
    (expireSweepOne 10
      { status := .inProgress,
        task := { type := "habit", requirements := [], verificationMethod := "manual",
                  deadline := none,
                  progress := { completed := false, percentage := 0, submissions := [],
                                verificationStatus := "pending", lastUpdated := 0 } },
        expiresAt := some 3, completedAt := none }).status = .expired :=
  ((expirationSweep_spec 10 []
      { status := .inProgress,
        task := { type := "habit", requirements := [], verificationMethod := "manual",
                  deadline := none,
                  progress := { completed := false, percentage := 0, submissions := [],
                                verificationStatus := "pending", lastUpdated := 0 } },
        expiresAt := some 3, completedAt := none }).2.2.2 rfl (by decide)).1

/-! C7: chat pagination, C8: engagement analytics -/

/-- `GET /:badgerId` chat history (routes/chat): the JS pipeline
`chat.slice().reverse().slice(skip, skip + limit).reverse()` with
`skip = (page - 1) * limit`; for 1-based pages `slice(skip, skip + limit)`
is drop-then-take. -/
def chatHistoryPage {α : Type} (chat : List α) (page limit : ℕ) : List α :=
  ((chat.reverse.drop ((page - 1) * limit)).take limit).reverse

theorem chatHistoryPage_eq_window {α : Type} (c : List α) (page limit : ℕ) :
    chatHistoryPage c page limit =
      (c.take (c.length - (page - 1) * limit)).drop
        (c.length - (page - 1) * limit - limit) := by
  unfold chatHistoryPage
  rw [List.drop_reverse, List.take_reverse, List.reverse_reverse, List.length_take,
    Nat.min_eq_left (Nat.sub_le _ _)]

/-- C7: for every chat log and 1-based page, the read operation returns
the chronological window that ends `(page-1)*limit` messages before the
end of the log and holds at most `limit` messages; page 1 is therefore the
most recent `limit` messages in chronological order, and on a log of five
messages t1..t5 with page 1 and limit 2 it returns [t4, t5]. -/
theorem chatPagination_spec :
    (∀ (α : Type) (c : List α) (page limit : ℕ), 1 ≤ page →
      chatHistoryPage c page limit =
        (c.take (c.length - (page - 1) * limit)).drop
          (c.length - (page - 1) * limit - limit)) ∧
    (∀ (α : Type) (c : List α) (limit : ℕ),
      chatHistoryPage c 1 limit = c.drop (c.length - limit)) ∧
    chatHistoryPage [1, 2, 3, 4, 5] 1 2 = [4, 5] := by
  refine ⟨fun α c page limit _ => chatHistoryPage_eq_window c page limit,
    fun α c limit => ?_, by decide⟩
  rw [chatHistoryPage_eq_window]
  simp

/-- Witness for C7: page 2 with limit 2 on a five-message log returns the
middle window [2, 3]. -/
theorem chatPagination_spec_witness :
    chatHistoryPage [1, 2, 3, 4, 5] 2 2 =
      (([1, 2, 3, 4, 5].take ([1, 2, 3, 4, 5].length - (2 - 1) * 2)).drop
        ([1, 2, 3, 4, 5].length - (2 - 1) * 2 - 2)) ∧
    chatHistoryPage [1, 2, 3, 4, 5] 2 2 = [2, 3] :=
  ⟨chatPagination_spec.1 ℕ [1, 2, 3, 4, 5] 2 2 (by decide), by decide⟩

/-- A chat message as the analytics read it: its sender identity (the
reserved string "badger" marks companion messages) and timestamp. -/
structure ChatMessage where
  senderId : String
  timestamp : ℤ
deriving DecidableEq, Repr

/-- The final if-chain of `calculateEngagementLevel` (routes/chat). -/
def engagementBucket (messagesPerDay : ℚ) : String :=
  if 3 ≤ messagesPerDay then ("high")
  else if 1 ≤ messagesPerDay then ("medium")
  else if 0 < messagesPerDay then ("low")
  else ("none")

/-- The body of `calculateEngagementLevel` for a non-empty chat whose
first message is `m0`: count non-companion messages, divide by the
ceiling of whole days since the first message (clamped below at 1), and
bucket the rate. -/
def engagementOfFirst (now : ℤ) (m0 : ChatMessage) (msgs : List ChatMessage) : String :=
  engagementBucket
    ((msgs.countP (fun m => m.senderId != "badger") : ℚ) /
      ((max 1 ⌈((now : ℚ) - (m0.timestamp : ℚ)) / (1000 * 60 * 60 * 24)⌉ : ℤ) : ℚ))

/-- `calculateEngagementLevel` (routes/chat): "none" on an empty chat,
otherwise the bucketed messages-per-day rate. -/
def calculateEngagementLevel (now : ℤ) (messages : List ChatMessage) : String :=
  match messages with
  | [] => ("none")
  | m0 :: rest => engagementOfFirst now m0 (m0 :: rest)

/-- Counterexample to C8: four non-companion messages whose first message
is exactly two days old give `messagesPerDay = 2`, which the code buckets
as "medium" (the "high" bucket needs at least 3), not "high" as the claim
states. -/
theorem engagement_example_counterexample :
    calculateEngagementLevel 172800000
      [⟨"user1", 0⟩, ⟨"user1", 1000⟩, ⟨"user1", 2000⟩, ⟨"user1", 3000⟩] = "medium" ∧
    calculateEngagementLevel 172800000
      [⟨"user1", 0⟩, ⟨"user1", 1000⟩, ⟨"user1", 2000⟩, ⟨"user1", 3000⟩] ≠ "high" := by
  have h : calculateEngagementLevel 172800000
      [⟨"user1", 0⟩, ⟨"user1", 1000⟩, ⟨"user1", 2000⟩, ⟨"user1", 3000⟩] = "medium" := by
    have hred : calculateEngagementLevel 172800000
        [⟨"user1", 0⟩, ⟨"user1", 1000⟩, ⟨"user1", 2000⟩, ⟨"user1", 3000⟩] =
        engagementOfFirst 172800000 ⟨"user1", 0⟩
          [⟨"user1", 0⟩, ⟨"user1", 1000⟩, ⟨"user1", 2000⟩, ⟨"user1", 3000⟩] := rfl
    rw [hred]
    unfold engagementOfFirst
    have hcount : (([⟨"user1", 0⟩, ⟨"user1", 1000⟩, ⟨"user1", 2000⟩, ⟨"user1", 3000⟩] :
        List ChatMessage).countP (fun m => m.senderId != "badger")) = 4 := by
      decide
    rw [hcount]
    unfold engagementBucket
    norm_num
  exact ⟨h, by rw [h]; decide⟩

/-- C8 amended: four non-companion messages over two days give
`messagesPerDay = 2` and engagement level "medium" (the "high" bucket
requires a rate of at least 3). -/
theorem engagement_rate_two_is_medium (now : ℤ) (m0 : ChatMessage)
    (rest : List ChatMessage)
    (hcount : (m0 :: rest).countP (fun m => m.senderId != "badger") = 4)
    (hdays : (max 1 ⌈((now : ℚ) - (m0.timestamp : ℚ)) / (1000 * 60 * 60 * 24)⌉ : ℤ) = 2) :
    calculateEngagementLevel now (m0 :: rest) = "medium" := by
  have hred : calculateEngagementLevel now (m0 :: rest) =
      engagementOfFirst now m0 (m0 :: rest) := rfl
  rw [hred]
  unfold engagementOfFirst
  rw [hcount, hdays]
  unfold engagementBucket
  norm_num

/-- Witness for the amended C8: the two-day four-message example
evaluates to "medium" through the theorem. -/
theorem engagement_rate_two_is_medium_witness :
    calculateEngagementLevel 172800000
      [⟨"user1", 0⟩, ⟨"user1", 1000⟩, ⟨"user1", 2000⟩, ⟨"user1", 3000⟩] = "medium" :=
  engagement_rate_two_is_medium 172800000 ⟨"user1", 0⟩
    [⟨"user1", 1000⟩, ⟨"user1", 2000⟩, ⟨"user1", 3000⟩]
    (by decide) (by norm_num)

/-! C9: concurrent user transition versus scheduler force-expire -/

/-- The validation phase of `PATCH /:id/status`, computed from the state
the handler read (possibly stale by write time): the status it will write,
or the 400 error. -/
def patchDecision (d : Delivery) (s : Status) : Except EngineError Status :=
  if s ∈ allowedTransitions d.status then .ok s else .error .invalidTransition

/-- Outcome of two racing writers on one delivery: the PATCH handler's
HTTP result, whether the `updateMany` force-expire counted the document as
modified, and the stored document after both writes. -/
structure RaceOutcome where
  userResult : Except EngineError Status
  cronMatched : Bool
  final : Delivery
deriving Repr

/-- A user transition and the `checkDeadlines` force-expire racing at the
same logical version of one delivery: the PATCH handler validates against
its read of `d0`; the cron's atomic filter-and-set commits; then the
handler's `save()` commits.  The schema sets no optimistic-concurrency
option and no route handles a version-conflict error, so the save writes
its modified paths unconditionally over whatever is stored. -/
def raceUserAfterCron (now : ℤ) (d0 : Delivery) (s : Status) : RaceOutcome :=
  match patchDecision d0 s with
  | .error e =>
    { userResult := .error e
      cronMatched := deadlineMatches now d0
      final := deadlineExpireOne now d0 }
  | .ok st =>
    { userResult := .ok st
      cronMatched := deadlineMatches now d0
      final := patchApply now (deadlineExpireOne now d0) st }

/-- Counterexample to C9: an `in-progress` delivery with a past deadline,
a user request for `awaiting-verification`, and the force-expire racing at
the same version: the user request returns success, the cron counts the
document as force-expired, and the stored status is the user's value — the
committed expiration was silently overwritten, both writers succeeded, and
no concurrent-modification error exists anywhere in the engine. -/
theorem race_counterexample :
    (raceUserAfterCron 1
      { status := .inProgress,
        task := { type := "habit", requirements := [], verificationMethod := "manual",
                  deadline := some 0,
                  progress := { completed := false, percentage := 0, submissions := [],
                                verificationStatus := "pending", lastUpdated := 0 } },
        expiresAt := none, completedAt := none } .awaitingVerification).userResult
      = .ok .awaitingVerification ∧
    (raceUserAfterCron 1
      { status := .inProgress,
        task := { type := "habit", requirements := [], verificationMethod := "manual",
                  deadline := some 0,
                  progress := { completed := false, percentage := 0, submissions := [],
                                verificationStatus := "pending", lastUpdated := 0 } },
        expiresAt := none, completedAt := none } .awaitingVerification).cronMatched = true ∧
    (raceUserAfterCron 1
      { status := .inProgress,
        task := { type := "habit", requirements := [], verificationMethod := "manual",
                  deadline := some 0,
                  progress := { completed := false, percentage := 0, submissions := [],
                                verificationStatus := "pending", lastUpdated := 0 } },
        expiresAt := none, completedAt := none } .awaitingVerification).final.status
      = .awaitingVerification :=
  ⟨rfl, rfl, rfl⟩

theorem expired_not_in_allowedTransitions (a : Status) :
    Status.expired ∉ allowedTransitions a := by
  cases a <;> decide

/-- C9 amended: there is no compare-and-set.  Whenever the user's
validation succeeds against the shared read and the force-expire filter
matches the same version, both operations report success and the user's
unconditional save determines the stored status, silently overwriting the
committed expiration (the written status is never `expired`, since the
transition table has no `expired` target). -/
theorem race_last_writer_wins (now : ℤ) (d : Delivery) (s st : Status)
    (hdec : patchDecision d s = .ok st)
    (hmatch : deadlineMatches now d = true) :
    (raceUserAfterCron now d s).userResult = .ok st ∧
    (raceUserAfterCron now d s).cronMatched = true ∧
    (deadlineExpireOne now d).status = .expired ∧
    (raceUserAfterCron now d s).final.status = st ∧
    st ≠ .expired := by
  have hst : st = s ∧ s ∈ allowedTransitions d.status := by
    unfold patchDecision at hdec
    split at hdec
    · cases hdec
      exact ⟨rfl, by assumption⟩
    · cases hdec
  unfold raceUserAfterCron
  rw [hdec]
  refine ⟨rfl, hmatch, ?_, ?_, ?_⟩
  · unfold deadlineExpireOne
    rw [if_pos hmatch]
  · by_cases hc : st = .completed <;> simp [patchApply, hc]
  · rw [hst.1]
    exact fun h => expired_not_in_allowedTransitions d.status (h ▸ hst.2)

/-- Witness for the amended C9: the concrete race of the counterexample
input through the theorem. -/
theorem race_last_writer_wins_witness :
    (raceUserAfterCron 1
      { status := .inProgress,
        task := { type := "habit", requirements := [], verificationMethod := "manual",
                  deadline := some 0,
                  progress := { completed := false, percentage := 0, submissions := [],
                                verificationStatus := "pending", lastUpdated := 0 } },
        expiresAt := none, completedAt := none } .received).userResult = .ok .cancelled ∨
    ((raceUserAfterCron 1
      { status := .inProgress,
        task := { type := "habit", requirements := [], verificationMethod := "manual",
                  deadline := some 0,
                  progress := { completed := false, percentage := 0, submissions := [],
                                verificationStatus := "pending", lastUpdated := 0 } },
        expiresAt := none, completedAt := none } .cancelled).userResult = .ok .cancelled ∧
    (raceUserAfterCron 1
      { status := .inProgress,
        task := { type := "habit", requirements := [], verificationMethod := "manual",
                  deadline := some 0,
                  progress := { completed := false, percentage := 0, submissions := [],
                                verificationStatus := "pending", lastUpdated := 0 } },
        expiresAt := none, completedAt := none } .cancelled).final.status = .cancelled) :=
  Or.inr
    ⟨(race_last_writer_wins 1
      { status := .inProgress,
        task := { type := "habit", requirements := [], verificationMethod := "manual",
                  deadline := some 0,
                  progress := { completed := false, percentage := 0, submissions := [],
                                verificationStatus := "pending", lastUpdated := 0 } },
        expiresAt := none, completedAt := none } .cancelled .cancelled
      rfl (by decide)).1,
     (race_last_writer_wins 1
      { status := .inProgress,
        task := { type := "habit", requirements := [], verificationMethod := "manual",
                  deadline := some 0,
                  progress := { completed := false, percentage := 0, submissions := [],
                                verificationStatus := "pending", lastUpdated := 0 } },
        expiresAt := none, completedAt := none } .cancelled .cancelled
      rfl (by decide)).2.2.2.1⟩

end HB
